import Mathlib

/-!
Verification of the zag-bridge MAC stack: a shallow embedding of the
host-radio transport reader, the MAC frame codec (MHR / BCN / CMD) and the
coordinator / device role handlers, translated from src/zag.py,
src/coordinator.py and src/device.py.

Byte strings are modelled as `List Nat` (each element a byte value).
Fallible Python code (struct.pack / struct.unpack errors, attribute errors,
value errors of enum casts, type errors) is modelled with `Option`: `none`
stands for a raised exception or, for `MHR.decode`, the explicit `None`
return on a rejected version field -- both make the role-level callers fail,
since they unpack the result unconditionally.
-/

/-- Big-endian pack of a 16-bit word, as struct.pack with an H format:
fails (raises struct.error) outside [0, 65536). -/
def packU16 (x : Nat) : Option (List Nat) :=
  if x < 65536 then some [x / 256, x % 256] else none

/-- Pack of a single byte, as struct.pack with a B format. -/
def packU8 (x : Nat) : Option (List Nat) :=
  if x < 256 then some [x] else none

/-- Big-endian read of a 16-bit word, as struct.unpack_from with an H format:
fails when fewer than two bytes remain. -/
def readU16 : List Nat → Option (Nat × List Nat)
  | a :: b :: r => some (256 * a + b, r)
  | _ => none

/-- Read of a single byte, as struct.unpack_from with a B format. -/
def readU8 : List Nat → Option (Nat × List Nat)
  | a :: r => some (a, r)
  | _ => none

/-- An address attribute value: a 16-bit short address is held as a Python
int, a long address as a Python bytes object (a byte list here). -/
inductive AddrVal where
  | short (a : Nat)
  | long (a : List Nat)
deriving DecidableEq

/-- Frame-control version field: (frame_control >> 12) & 3. -/
def fcVersion (fc : Nat) : Nat := (fc >>> 12) &&& 3

/-- Frame-control destination addressing mode: (frame_control >> 10) & 3. -/
def fcDstMode (fc : Nat) : Nat := (fc >>> 10) &&& 3

/-- Frame-control source addressing mode: (frame_control >> 14) & 3. -/
def fcSrcMode (fc : Nat) : Nat := (fc >>> 14) &&& 3

/-- Frame-control PAN-ID compression bit: (frame_control >> 6) & 1. -/
def fcPanidCompression (fc : Nat) : Nat := (fc >>> 6) &&& 1

/-- The MHR object of zag.py. Python sets the address and PAN-ID attributes
only in some frame layouts; an absent attribute is `none` (reading it raises
AttributeError, modelled as a failing computation). -/
structure MHR where
  frame_control : Nat := 0
  seq_num : Nat := 0
  dst_panid : Option Nat := none
  dst_addr : Option AddrVal := none
  src_panid : Option Nat := none
  src_addr : Option AddrVal := none
deriving DecidableEq

/-- Serialise one address field of the MHR, per addressing mode: mode 2
packs a short address (an int attribute; anything else raises), mode 3
appends the long-address bytes verbatim (a non-bytes attribute raises),
mode 0 emits nothing. Only called with mode in 0, 2, 3. -/
def encAddr (mode : Nat) (addr : Option AddrVal) : Option (List Nat) :=
  if mode = 2 then
    match addr with
    | some (.short a) => packU16 a
    | _ => none
  else if mode = 3 then
    match addr with
    | some (.long bs) => some bs
    | _ => none
  else some []

/-- Parse one address field of the MHR, per addressing mode: mode 2 reads a
16-bit short address, mode 3 slices the next 8 bytes (a Python slice, which
silently returns fewer bytes when the data runs out), mode 0 reads
nothing. -/
def decAddr (mode : Nat) (r : List Nat) : Option (Option AddrVal × List Nat) :=
  if mode = 2 then
    match readU16 r with
    | some (a, r2) => some (some (.short a), r2)
    | none => none
  else if mode = 3 then some (some (.long (r.take 8)), r.drop 8)
  else some (none, r)

/-- MHR.encode of zag.py: frame control and sequence number, then the
destination PAN-ID and address when the destination is addressed, then the
source PAN-ID unless PAN-ID compression is on, then the source address.
Addressing mode 1 raises ValueError in the AddrMode cast. -/
def MHR.encode (m : MHR) : Option (List Nat) :=
  match packU16 m.frame_control, packU8 m.seq_num with
  | some fcB, some seqB =>
    if fcDstMode m.frame_control = 1 then none
    else
      let dstPanB : Option (List Nat) :=
        if fcDstMode m.frame_control = 2 ∨ fcDstMode m.frame_control = 3 then
          match m.dst_panid with
          | some p => packU16 p
          | none => none
        else some []
      match dstPanB, encAddr (fcDstMode m.frame_control) m.dst_addr with
      | some pB, some aB =>
        if fcSrcMode m.frame_control = 1 then none
        else
          let srcPanB : Option (List Nat) :=
            if (fcSrcMode m.frame_control = 2 ∨ fcSrcMode m.frame_control = 3) ∧
                fcPanidCompression m.frame_control = 0 then
              match m.src_panid with
              | some p => packU16 p
              | none => none
            else some []
          match srcPanB, encAddr (fcSrcMode m.frame_control) m.src_addr with
          | some spB, some saB => some (fcB ++ seqB ++ pB ++ aB ++ spB ++ saB)
          | _, _ => none
      | _, _ => none
  | _, _ => none

/-- MHR.decode of zag.py. Returns `none` when the version field exceeds 2006
(the Python method returns None there), when an addressing mode is 1 (the
AddrMode cast raises ValueError), or when a struct.unpack_from runs out of
bytes. With compression on and both sides addressed, the source PAN-ID is
copied from the destination PAN-ID without consuming wire bytes. -/
def MHR.decode (data : List Nat) : Option (MHR × List Nat) :=
  match data with
  | b0 :: b1 :: b2 :: r0 =>
    let fc := 256 * b0 + b1
    if fcVersion fc > 1 then none
    else if fcDstMode fc = 1 then none
    else
      match (if fcDstMode fc = 2 ∨ fcDstMode fc = 3 then
               match readU16 r0 with
               | some (p, r) => some (some p, r)
               | none => none
             else some (none, r0) : Option (Option Nat × List Nat)) with
      | none => none
      | some (dstPan, r1) =>
        match decAddr (fcDstMode fc) r1 with
        | none => none
        | some (dstAddr, r2) =>
          if fcSrcMode fc = 1 then none
          else
            match (if fcSrcMode fc = 2 ∨ fcSrcMode fc = 3 then
                     if fcPanidCompression fc = 1 ∧
                         (fcDstMode fc = 2 ∨ fcDstMode fc = 3) then
                       some (dstPan, r2)
                     else
                       match readU16 r2 with
                       | some (p, r) => some (some p, r)
                       | none => none
                   else some (none, r2) : Option (Option Nat × List Nat)) with
            | none => none
            | some (srcPan, r3) =>
              match decAddr (fcSrcMode fc) r3 with
              | none => none
              | some (srcAddr, r4) =>
                some ({ frame_control := fc, seq_num := b2, dst_panid := dstPan,
                        dst_addr := dstAddr, src_panid := srcPan,
                        src_addr := srcAddr }, r4)
  | _ => none

/-- One side (dst or src) of an MHR is laid out consistently with its
addressing mode: mode 0 has no PAN-ID and no address, mode 2 a 16-bit PAN-ID
and a 16-bit short address, mode 3 a 16-bit PAN-ID and an 8-byte long
address. -/
def sideOk (mode : Nat) (panid : Option Nat) (addr : Option AddrVal) : Prop :=
  (mode = 0 ∧ panid = none ∧ addr = none) ∨
  (mode = 2 ∧ (∃ p, p < 65536 ∧ panid = some p) ∧
    (∃ a, a < 65536 ∧ addr = some (.short a))) ∨
  (mode = 3 ∧ (∃ p, p < 65536 ∧ panid = some p) ∧
    (∃ bs, bs.length = 8 ∧ (∀ x ∈ bs, x < 256) ∧ addr = some (.long bs)))

/-- A well-formed MHR, per the data model of the spec: 16-bit frame control,
8-bit sequence number, version at most 2006, each side laid out per its
addressing mode, and PAN-ID compression only when both sides are addressed
with the source PAN-ID equal to the destination PAN-ID in memory. -/
def MHR.wellFormed (m : MHR) : Prop :=
  m.frame_control < 65536 ∧ m.seq_num < 256 ∧
  fcVersion m.frame_control ≤ 1 ∧
  sideOk (fcDstMode m.frame_control) m.dst_panid m.dst_addr ∧
  sideOk (fcSrcMode m.frame_control) m.src_panid m.src_addr ∧
  (fcPanidCompression m.frame_control = 1 →
    fcDstMode m.frame_control ≠ 0 ∧ fcSrcMode m.frame_control ≠ 0 ∧
    m.src_panid = m.dst_panid)

/-- The BCN object of zag.py. `gts_mask` and `gts_desc` are attributes only
set when the descriptor count is positive; `ssid` holds the UTF-8 bytes of
the Python string (the str / bytes distinction and UTF-8 validation are
abstracted away: the wire bytes are kept as they are). -/
structure BCN where
  superframe : Nat := 0
  gts_spec : Nat := 0
  gts_mask : Option Nat := none
  gts_desc : Option (List Nat) := none
  pend_addr : List AddrVal := []
  ssid : List Nat := []
  services : List Nat := []
deriving DecidableEq

/-- Read `n` three-byte GTS descriptors, each packed as
gts_info << 16 | short_addr. -/
def readGtsDescs : Nat → List Nat → Option (List Nat × List Nat)
  | 0, r => some ([], r)
  | n + 1, r =>
    match r with
    | a :: b :: c :: rest =>
      match readGtsDescs n rest with
      | some (ds, r2) => some (((c <<< 16) ||| (256 * a + b)) :: ds, r2)
      | none => none
    | _ => none

/-- Read `n` 16-bit values (pending short addresses or service codes). -/
def readShorts : Nat → List Nat → Option (List Nat × List Nat)
  | 0, r => some ([], r)
  | n + 1, r =>
    match readU16 r with
    | some (x, r2) =>
      match readShorts n r2 with
      | some (xs, r3) => some (x :: xs, r3)
      | none => none
    | none => none

/-- Slice `n` 8-byte long addresses. A Python slice never fails: when the
data runs out the tail addresses come back short or empty. -/
def readLongs : Nat → List Nat → List (List Nat) × List Nat
  | 0, r => ([], r)
  | n + 1, r =>
    let a := r.take 8
    let p := readLongs n (r.drop 8)
    (a :: p.1, p.2)

/-- Serialise the first `n` GTS descriptors of the list: an IndexError
(list too short) or a descriptor whose high part exceeds a byte fails. -/
def encGtsDescs : Nat → List Nat → Option (List Nat)
  | 0, _ => some []
  | n + 1, ds =>
    match ds with
    | d :: rest =>
      if d >>> 16 < 256 then
        match encGtsDescs n rest with
        | some t => some ((d &&& 0xFFFF) / 256 :: (d &&& 0xFFFF) % 256 :: d >>> 16 :: t)
        | none => none
      else none
    | [] => none

/-- Serialise a list of 16-bit values big-endian. -/
def encShorts : List Nat → Option (List Nat)
  | [] => some []
  | x :: xs =>
    match packU16 x with
    | some xB =>
      match encShorts xs with
      | some t => some (xB ++ t)
      | none => none
    | none => none

/-- The 4-byte vendor-extension magic b"Zag!". -/
def zagMagic : List Nat := [0x5A, 0x61, 0x67, 0x21]

/-- BCN.decode of zag.py: superframe and gts_spec, optional GTS block,
pending-address lists (short then long), then the optional vendor extension
introduced by the magic b"Zag!". -/
def BCN.decode (data : List Nat) : Option (BCN × List Nat) :=
  match data with
  | b0 :: b1 :: b2 :: r0 =>
    let superframe := 256 * b0 + b1
    let num_desc := b2 &&& 3
    match (if num_desc > 0 then
             match r0 with
             | m :: r1 =>
               match readGtsDescs num_desc r1 with
               | some (ds, r2) => some (some m, some ds, r2)
               | none => none
             | [] => none
           else some (none, none, r0) :
           Option (Option Nat × Option (List Nat) × List Nat)) with
    | none => none
    | some (gmask, gdesc, r2) =>
      match r2 with
      | [] => none
      | spec :: r3 =>
        match readShorts (spec &&& 7) r3 with
        | none => none
        | some (shorts, r4) =>
          let lp := readLongs ((spec >>> 4) &&& 7) r4
          let base : BCN :=
            { superframe := superframe, gts_spec := b2, gts_mask := gmask,
              gts_desc := gdesc,
              pend_addr := shorts.map AddrVal.short ++ lp.1.map AddrVal.long }
          if lp.2.take 4 ≠ zagMagic then some (base, lp.2)
          else
            match lp.2.drop 4 with
            | [] => none
            | sl :: r6 =>
              match r6.drop sl with
              | [] => none
              | ns :: r8 =>
                match readShorts ns r8 with
                | none => none
                | some (svcs, r9) =>
                  some ({ base with ssid := r6.take sl, services := svcs }, r9)
  | _ => none

/-- BCN.encode of zag.py. The pending-address loop for long addresses
appends the long-address *list* to the byte string (data += long_addr inside
the loop), which raises TypeError in Python whenever at least one long
pending address is present: that branch is `none` here. -/
def BCN.encode (b : BCN) : Option (List Nat) :=
  match packU16 b.superframe, packU8 b.gts_spec with
  | some sfB, some gsB =>
    let num_desc := b.gts_spec &&& 3
    match (if num_desc > 0 then
             match b.gts_mask with
             | none => none
             | some m =>
               match packU8 m with
               | none => none
               | some mB =>
                 match b.gts_desc with
                 | none => none
                 | some ds =>
                   match encGtsDescs num_desc ds with
                   | some dB => some (mB ++ dB)
                   | none => none
           else some [] : Option (List Nat)) with
    | none => none
    | some gtsB =>
      let shorts := b.pend_addr.filterMap
        (fun a => match a with | .short x => some x | .long _ => none)
      let longs := b.pend_addr.filterMap
        (fun a => match a with | .long x => some x | .short _ => none)
      match packU8 ((longs.length <<< 4) ||| shorts.length) with
      | none => none
      | some specB =>
        match encShorts shorts with
        | none => none
        | some shortsB =>
          if longs ≠ [] then none
          else
            match packU8 b.ssid.length, packU8 b.services.length with
            | some slB, some nsB =>
              match encShorts b.services with
              | none => none
              | some svcB =>
                some (sfB ++ gsB ++ gtsB ++ specB ++ shortsB ++ zagMagic ++
                      slB ++ b.ssid ++ nsB ++ svcB)
            | _, _ => none
  | _, _ => none

/-- The CMD object of zag.py. Python leaves `identifier` unset until decode
or a role assigns it (here it defaults to 0, which is not an enumerated
identifier); `short_addr` is initialised to None. -/
structure CMD where
  identifier : Nat := 0
  capability : Nat := 0
  short_addr : Option Nat := none
  status : Nat := 0
  reason : Nat := 0
  panid : Nat := 0
  coord_addr : Nat := 0
  channel : Nat := 0
  characteristics : Nat := 0
deriving DecidableEq

/-- CMD.decode of zag.py. An identifier outside 1..9 raises ValueError in
the Identifier cast. In the gts_request branch the source compares
(cmd.characteristics == struct.unpack_from(...)) instead of assigning, so
the byte is consumed but the decoded characteristics stays at its default
of 0. -/
def CMD.decode (data : List Nat) : Option (CMD × List Nat) :=
  match data with
  | idb :: r0 =>
    if idb < 1 ∨ 9 < idb then none
    else if idb = 1 then
      match r0 with
      | c :: r1 => some ({ identifier := 1, capability := c }, r1)
      | [] => none
    else if idb = 2 then
      match r0 with
      | a :: b :: s :: r1 =>
        some ({ identifier := 2, short_addr := some (256 * a + b),
                status := s }, r1)
      | _ => none
    else if idb = 3 then
      match r0 with
      | c :: r1 => some ({ identifier := 3, reason := c }, r1)
      | [] => none
    else if idb = 8 then
      match r0 with
      | p1 :: p2 :: c1 :: c2 :: ch :: s1 :: s2 :: r1 =>
        some ({ identifier := 8, panid := 256 * p1 + p2,
                coord_addr := 256 * c1 + c2, channel := ch,
                short_addr := some (256 * s1 + s2) }, r1)
      | _ => none
    else if idb = 9 then
      match r0 with
      | _ :: r1 => some ({ identifier := 9 }, r1)
      | [] => none
    else some ({ identifier := idb }, r0)
  | [] => none

/-- CMD.encode of zag.py: the identifier byte followed by the
identifier-dependent body. -/
def CMD.encode (c : CMD) : Option (List Nat) :=
  match packU8 c.identifier with
  | none => none
  | some idB =>
    if c.identifier = 1 then
      match packU8 c.capability with
      | some t => some (idB ++ t)
      | none => none
    else if c.identifier = 2 then
      match c.short_addr with
      | none => none
      | some s =>
        match packU16 s, packU8 c.status with
        | some sB, some stB => some (idB ++ sB ++ stB)
        | _, _ => none
    else if c.identifier = 3 then
      match packU8 c.reason with
      | some t => some (idB ++ t)
      | none => none
    else if c.identifier = 8 then
      match c.short_addr with
      | none => none
      | some s =>
        match packU16 c.panid, packU16 c.coord_addr, packU8 c.channel,
            packU16 s with
        | some pB, some cB, some chB, some sB =>
          some (idB ++ pB ++ cB ++ chB ++ sB)
        | _, _, _, _ => none
    else if c.identifier = 9 then
      match packU8 c.characteristics with
      | some t => some (idB ++ t)
      | none => none
    else some idB


/-- An asynchronous event produced by the reader thread of DEV: an on_packet
event carries the frame bytes with the trailing rssi / link-quality pair
stripped (the signed rssi is surfaced), an on_button event one byte. -/
inductive DEVEvent where
  | on_packet (frame : List Nat) (rssi : Int)
  | on_button (b : Nat)
deriving DecidableEq

/-- The reader-visible state of a DEV transport: the sync flag plus the two
queues the reader appends to. -/
structure ReaderState where
  do_sync : Bool := true
  reader_queue : List (Nat × List Nat) := []
  event_queue : List DEVEvent := []
deriving DecidableEq

/-- The 4-byte resynchronisation magic b"\xAAZAG". -/
def devMagic : List Nat := [0xAA, 0x5A, 0x41, 0x47]

/-- Signed reinterpretation of a byte, as struct.unpack with a b format. -/
def toSigned (b : Nat) : Int := if b < 128 then (b : Int) else (b : Int) - 256

/-- The header-and-payload part of one iteration of DEV.reader:
read the 2-byte header (a short read just restarts the loop, leaving
do_sync unchanged), read the payload, then demultiplex: kind bits 0xC0 mark
an event (an unknown event kind, or an on_packet payload shorter than the
rssi / link-quality trailer, or an on_button payload that is not exactly one
byte, raises and is `none`), otherwise a response (unknown response kinds
raise in the Response cast). `headerChunk` and `payloadChunk` are what the
serial reads return within the timeout. -/
def DEV.readBody (st : ReaderState) (headerChunk : List Nat)
    (payloadChunk : Nat → List Nat) : Option ReaderState :=
  match headerChunk with
  | [response, data_len] =>
    let data := payloadChunk data_len
    if data.length ≠ data_len then some st
    else if response &&& 0xC0 = 0xC0 then
      if response = 0xC0 then
        match data.reverse with
        | _lq :: rb :: _ =>
          some { st with event_queue := st.event_queue ++
                   [.on_packet (data.take (data.length - 2)) (toSigned rb)] }
        | _ => none
      else if response = 0xC1 then
        match data with
        | [b] => some { st with event_queue := st.event_queue ++ [.on_button b] }
        | _ => none
      else none
    else if response = 0x80 ∨ response = 0x81 then
      some { st with reader_queue := st.reader_queue ++ [(response, data)] }
    else none
  | _ => some st

/-- One iteration of the DEV.reader loop. In the sync-lost state the reader
reads until the magic: an empty read rewrites the magic and restarts, a read
not ending in the magic restarts, and a read ending in the magic clears
do_sync and falls through to the header read of the same iteration. In the
synced state the iteration is just the header-and-payload body. -/
def DEV.readerStep (st : ReaderState) (syncChunk headerChunk : List Nat)
    (payloadChunk : Nat → List Nat) : Option ReaderState :=
  if st.do_sync then
    if syncChunk = [] then some st
    else if devMagic.isSuffixOf syncChunk = false then some st
    else DEV.readBody { st with do_sync := false } headerChunk payloadChunk
  else DEV.readBody st headerChunk payloadChunk

/-- An externally visible action of a role handler: a raw frame handed to
the radio, or an LED mask / value write. -/
inductive RoleAction where
  | send_packet (data : List Nat)
  | set_leds (mask value : Nat)
deriving DecidableEq

/-- Modelled from the spec: coordinator.py refers to DEV.Leds.green, but the
DEV class in src/zag.py defines no Leds enumeration (only the set_leds
mask / value primitive the spec lists among the external collaborators).
The green LED mask is therefore modelled as a fixed bit value; no claim
depends on which bit it is. -/
def ledsGreen : Nat := 2

/-- The MAC ack frame built by send_ack: frame type ack, everything else
zero, bearing the acked sequence number. -/
def ackMHR (seq : Nat) : MHR := { frame_control := 2, seq_num := seq }

/-- The mutable state of the Coordinator role, plus the persisted
coordinator.ini contents (`saved_panid`, `saved_devices`) written by
save_config. `devices` maps assigned short addresses to long-address bytes
in insertion order, as the Python dict does. -/
structure CoordState where
  panid : Nat := 0
  short_addr : Nat := 0
  long_addr : List Nat := []
  devices : List (Nat × List Nat) := []
  saved_panid : Nat := 0
  saved_devices : List (Nat × List Nat) := []
  associate : Option AddrVal := none
  associate_start : Nat := 0
  blink : Nat := 0
  blink_last : Nat := 0
  bsn : Nat := 0
  dsn : Nat := 0
  ssid : List Nat := []
  services : List Nat := []
  packet : Option (List Nat) := none
  packet_last : Nat := 0
  packet_retry : Nat := 0
  packet_seq : Nat := 0
deriving DecidableEq

/-- Draw random short addresses until one differs from the coordinator
address and is not yet assigned, as the while-True randint loop of
send_association_response; the stream of draws is explicit, and running out
of it models the loop never finding a free address. -/
def allocShort (own : Nat) (devices : List (Nat × List Nat)) :
    List Nat → Option Nat
  | [] => none
  | r :: rs =>
    if r = own then allocShort own devices rs
    else if (devices.lookup r).isSome then allocShort own devices rs
    else some r

/-- Coordinator.send_association_response of coordinator.py. Selects the
short address and status (access_denied, the stored address for a known
long address, pan_at_capacity when full -- where the source has the
effect-free comparison short_addr == 0xFFFF -- or a fresh allocation that is
persisted), then sends the association response frame through the retry
layer and bumps dsn. -/
def Coordinator.send_association_response (st : CoordState) (now : Nat)
    (rng : List Nat) (long_addr : AddrVal) (access_denied : Bool) :
    Option (CoordState × List RoleAction) :=
  match (if access_denied then some (0xFFFF, 2, st)
         else
           let found := st.devices.foldl
             (fun acc e => if AddrVal.long e.2 = long_addr then e.1 else acc)
             0xFFFF
           if found > 0xFFFD then
             if st.devices.length ≥ 0xFFFD then some (found, 1, st)
             else
               match long_addr with
               | .long la =>
                 match allocShort st.short_addr st.devices rng with
                 | some s =>
                   some (s, 0,
                     { st with
                       devices := st.devices ++ [(s, la)],
                       saved_panid := st.panid,
                       saved_devices := st.devices ++ [(s, la)] })
                 | none => none
               | .short _ => none
           else some (found, 0, st) : Option (Nat × Nat × CoordState)) with
  | none => none
  | some (shortA, status, st1) =>
    match MHR.encode { frame_control := 0xCC63, seq_num := st1.dsn,
                       dst_panid := some st1.panid, dst_addr := some long_addr,
                       src_panid := some st1.panid,
                       src_addr := some (.long st1.long_addr) } with
    | none => none
    | some mhrB =>
      match CMD.encode { identifier := 2, short_addr := some shortA,
                         status := status } with
      | none => none
      | some cmdB =>
        some ({ st1 with
                packet := some (mhrB ++ cmdB), packet_last := now,
                packet_retry := 0, packet_seq := st1.dsn,
                dsn := (st1.dsn + 1) &&& 0xFF },
              [RoleAction.send_packet (mhrB ++ cmdB)])

/-- Coordinator.send_bcn of coordinator.py: a beacon frame with short
source addressing from the coordinator, carrying the Zag vendor extension
with the configured ssid and services, bumping bsn. -/
def Coordinator.send_bcn (st : CoordState) : Option (CoordState × List RoleAction) :=
  match MHR.encode { frame_control := 0x8000, seq_num := st.bsn,
                     src_panid := some st.panid,
                     src_addr := some (.short st.short_addr) } with
  | none => none
  | some mhrB =>
    match BCN.encode { superframe := 0xC0FF, ssid := st.ssid,
                       services := st.services } with
    | none => none
    | some bcnB =>
      some ({ st with bsn := (st.bsn + 1) &&& 0xFF },
            [RoleAction.send_packet (mhrB ++ bcnB)])

/-- Coordinator.bcn_request_handler of coordinator.py: require no source
addressing, short broadcast destination addressing to PAN 0xFFFF address
0xFFFF, then emit one beacon. -/
def Coordinator.bcn_request_handler (st : CoordState) (mhr : MHR) (cmd : CMD) :
    Option (CoordState × List RoleAction) :=
  if fcSrcMode mhr.frame_control ≠ 0 then some (st, [])
  else if fcDstMode mhr.frame_control ≠ 2 then some (st, [])
  else
    match mhr.dst_panid with
    | none => none
    | some dp =>
      if dp ≠ 0xFFFF then some (st, [])
      else
        match mhr.dst_addr with
        | none => none
        | some da =>
          if da ≠ .short 0xFFFF then some (st, [])
          else Coordinator.send_bcn st

/-- Coordinator.association_request_handler of coordinator.py: after the
header checks, ack the request; deny while another association is pending;
answer a known device immediately; otherwise record the requester and the
current time (wait_associate) and start the green blink. -/
def Coordinator.association_request_handler (st : CoordState) (now : Nat)
    (rng : List Nat) (mhr : MHR) (cmd : CMD) :
    Option (CoordState × List RoleAction) :=
  if mhr.frame_control &&& 32 = 0 then some (st, [])
  else if fcDstMode mhr.frame_control ≠ 2 then some (st, [])
  else if fcSrcMode mhr.frame_control ≠ 3 then some (st, [])
  else
    match mhr.dst_panid with
    | none => none
    | some dp =>
      if dp ≠ st.panid then some (st, [])
      else
        match mhr.dst_addr with
        | none => none
        | some da =>
          if da ≠ .short st.short_addr then some (st, [])
          else
            match mhr.src_panid with
            | none => none
            | some sp =>
              if sp ≠ 0xFFFF then some (st, [])
              else
                match MHR.encode (ackMHR mhr.seq_num) with
                | none => none
                | some ackB =>
                  match mhr.src_addr with
                  | none => none
                  | some sa =>
                    let rest : Option (CoordState × List RoleAction) :=
                      if ∃ e ∈ st.devices, AddrVal.long e.2 = sa then
                        match Coordinator.send_association_response st now rng
                            sa false with
                        | none => none
                        | some (st2, acts) =>
                          some (st2, RoleAction.send_packet ackB :: acts)
                      else
                        some ({ st with
                                associate_start := now,
                                associate := some sa,
                                blink := st.blink ||| ledsGreen,
                                blink_last := now },
                              [RoleAction.send_packet ackB,
                               RoleAction.set_leds ledsGreen ledsGreen])
                    match st.associate with
                    | some other =>
                      if other ≠ sa then
                        match Coordinator.send_association_response st now rng
                            sa true with
                        | none => none
                        | some (st2, acts) =>
                          some (st2, RoleAction.send_packet ackB :: acts)
                      else rest
                    | none => rest

/-- Coordinator.cmd_handler of coordinator.py: dispatch on the command
identifier (beacon request 7, association request 1). -/
def Coordinator.cmd_handler (st : CoordState) (now : Nat) (rng : List Nat)
    (mhr : MHR) (cmd : CMD) (payload : List Nat) :
    Option (CoordState × List RoleAction) :=
  if cmd.identifier = 7 then Coordinator.bcn_request_handler st mhr cmd
  else if cmd.identifier = 1 then
    Coordinator.association_request_handler st now rng mhr cmd
  else some (st, [])

/-- The decoding work of debug_packet, run by every packet handler first:
decode the MHR (unpacking the None returned for a rejected version raises
TypeError, a mode-1 frame raises ValueError), then decode the BCN or CMD
payload of beacon and command frames. Printing is dropped; only whether it
raises matters. -/
def debugDecodeOk (packet : List Nat) : Bool :=
  match MHR.decode packet with
  | none => false
  | some (mhr, payload) =>
    if mhr.frame_control &&& 7 = 0 then (BCN.decode payload).isSome
    else if mhr.frame_control &&& 7 = 3 then (CMD.decode payload).isSome
    else true

/-- Coordinator.packet_handler of coordinator.py: debug-print the packet
(whose decoding raises on refused frames -- nothing catches that, so the
whole handler fails), then clear the pending retry entry on a matching ack,
or dispatch a command frame. -/
def Coordinator.packet_handler (st : CoordState) (now : Nat) (rng : List Nat)
    (packet : List Nat) : Option (CoordState × List RoleAction) :=
  if debugDecodeOk packet = false then none
  else
    match MHR.decode packet with
    | none => none
    | some (mhr, payload) =>
      if mhr.frame_control &&& 7 = 2 then
        if st.packet.isSome ∧ mhr.seq_num = st.packet_seq then
          some ({ st with packet := none, packet_retry := 0 }, [])
        else some (st, [])
      else if mhr.frame_control &&& 7 = 3 then
        match CMD.decode payload with
        | none => none
        | some (cmd, payload2) =>
          Coordinator.cmd_handler st now rng mhr cmd payload2
      else some (st, [])

/-- The mutable state of the Device role relevant to association, plus the
persisted device.ini association triple (panid, coordinator, short_addr)
written by save_config. `short_addr` is an attribute Python only sets on a
received association response. assoc_state: 0 = idle, 1 = wait_response. -/
structure DevState where
  long_addr : List Nat := []
  panid : Nat := 0
  coordinator : List Nat := []
  short_addr : Option Nat := none
  saved : Option (Nat × List Nat × Nat) := none
  assoc_state : Nat := 0
deriving DecidableEq

/-- Device.save_config of device.py: write coordinator, panid and
short_addr back to device.ini; formatting a missing short_addr raises. -/
def Device.save_config (st : DevState) : Option DevState :=
  match st.short_addr with
  | none => none
  | some s => some { st with saved := some (st.panid, st.coordinator, s) }

/-- Device.association_response_handler of device.py: while waiting for a
response, after the addressing checks, ack and then unconditionally adopt
panid, coordinator and short_addr from the response, persist them, and
return to idle. The source never inspects cmd.status. -/
def Device.association_response_handler (st : DevState) (mhr : MHR)
    (cmd : CMD) : Option (DevState × List RoleAction) :=
  if st.assoc_state ≠ 1 then some (st, [])
  else if mhr.frame_control &&& 32 = 0 then some (st, [])
  else if fcDstMode mhr.frame_control ≠ 3 then some (st, [])
  else if fcSrcMode mhr.frame_control ≠ 3 then some (st, [])
  else
    match mhr.dst_addr with
    | none => none
    | some da =>
      if da ≠ .long st.long_addr then some (st, [])
      else
        match MHR.encode (ackMHR mhr.seq_num) with
        | none => none
        | some ackB =>
          match mhr.dst_panid with
          | none => none
          | some dp =>
            match mhr.src_addr with
            | none => none
            | some (.short _) => none
            | some (.long sa) =>
              match cmd.short_addr with
              | none => none
              | some cs =>
                match Device.save_config
                    { st with
                      panid := dp, coordinator := sa,
                      short_addr := some cs } with
                | none => none
                | some st2 =>
                  some ({ st2 with assoc_state := 0 },
                        [RoleAction.send_packet ackB])

/-! Helper lemmas about the byte-level primitives. -/

theorem packU16_eq {x : Nat} (h : x < 65536) :
    packU16 x = some [x / 256, x % 256] := by
  simp [packU16, h]

theorem packU8_eq {x : Nat} (h : x < 256) : packU8 x = some [x] := by
  simp [packU8, h]

theorem readU16_bytes (x : Nat) (r : List Nat) :
    readU16 (x / 256 :: x % 256 :: r) = some (x, r) := by
  simp [readU16, Nat.div_add_mod]

theorem comp_lt_two (fc : Nat) : fcPanidCompression fc < 2 :=
  lt_of_le_of_lt Nat.and_le_right (by norm_num)

theorem decAddr_zero (r : List Nat) : decAddr 0 r = some (none, r) := by
  simp [decAddr]

theorem encAddr_zero (addr : Option AddrVal) : encAddr 0 addr = some [] := by
  simp [encAddr]

/-- An address side that satisfies its layout predicate serialises to bytes
that parse back to the same value, leaving the rest untouched. -/
theorem side_enc_dec {mode : Nat} {panid : Option Nat} {addr : Option AddrVal}
    (h : sideOk mode panid addr) :
    (mode = 0 ∧ panid = none ∧ addr = none) ∨
    ((mode = 2 ∨ mode = 3) ∧ ∃ p ab, p < 65536 ∧ panid = some p ∧
      encAddr mode addr = some ab ∧
      ∀ r, decAddr mode (ab ++ r) = some (addr, r)) := by
  rcases h with ⟨h0, hp, ha⟩ | ⟨h2, ⟨p, hplt, hp⟩, ⟨a, halt, ha⟩⟩ |
    ⟨h3, ⟨p, hplt, hp⟩, ⟨bs, hlen, _hbnd, ha⟩⟩
  · exact Or.inl ⟨h0, hp, ha⟩
  · subst h2
    refine Or.inr ⟨Or.inl rfl, p, [a / 256, a % 256], hplt, hp, ?_, ?_⟩
    · simp [encAddr, ha, packU16_eq halt]
    · intro r
      simp [decAddr, ha, readU16_bytes]
  · subst h3
    refine Or.inr ⟨Or.inr rfl, p, bs, hplt, hp, ?_, ?_⟩
    · simp [encAddr, ha]
    · intro r
      rw [decAddr, if_neg (by norm_num), if_pos rfl, ha, ← hlen,
        List.take_left, List.drop_left]
/-- Round-trip of the MHR codec for well-formed headers: encoding succeeds
and decoding the result returns the same header with an empty remainder. -/
theorem mhr_roundtrip_aux (m : MHR) (h : m.wellFormed) :
    ∃ bs, m.encode = some bs ∧ MHR.decode bs = some (m, []) := by
  obtain ⟨fc, seq, dp0, da0, sp0, sa0⟩ := m
  obtain ⟨hfc, hseq, hv, hdst, hsrc, hcomp⟩ := h
  simp only [MHR.wellFormed] at *
  have hv2 : ¬ fcVersion fc > 1 := by omega
  rcases side_enc_dec hdst with ⟨hd0, hdp, hda⟩ |
    ⟨hdA, p, ab, hplt, hdp, hde, hdd⟩ <;>
  rcases side_enc_dec hsrc with ⟨hs0, hsp, hsa⟩ |
    ⟨hsA, q, sb, hqlt, hsp, hse, hsd⟩
  -- dst unaddressed, src unaddressed
  · subst hdp hda hsp hsa
    refine ⟨[fc / 256, fc % 256, seq], ?_, ?_⟩
    · simp [MHR.encode, packU16_eq hfc, packU8_eq hseq, hd0, hs0, encAddr_zero]
    · simp [MHR.decode, Nat.div_add_mod, hv2, hd0, hs0, decAddr_zero]
  -- dst unaddressed, src addressed
  · subst hdp hda hsp
    have hc0 : fcPanidCompression fc = 0 := by
      have h2 : fcPanidCompression fc = 0 ∨ fcPanidCompression fc = 1 := by
        have := comp_lt_two fc; omega
      rcases h2 with h | h
      · exact h
      · exact absurd hd0 (hcomp h).1
    have hs1 : fcSrcMode fc ≠ 1 := by rcases hsA with h | h <;> omega
    have hsd0 : decAddr (fcSrcMode fc) sb = some (sa0, []) := by
      simpa using hsd []
    refine ⟨fc / 256 :: fc % 256 :: seq :: q / 256 :: q % 256 :: sb, ?_, ?_⟩
    · simp [MHR.encode, packU16_eq hfc, packU8_eq hseq, packU16_eq hqlt,
        hd0, hsA, hs1, hc0, encAddr_zero, hse]
    · simp [MHR.decode, Nat.div_add_mod, hv2, hd0, hsA, hs1, hc0,
        decAddr_zero, readU16_bytes, hsd0]
  -- dst addressed, src unaddressed
  · subst hdp hsp hsa
    have hc0 : fcPanidCompression fc = 0 := by
      have h2 : fcPanidCompression fc = 0 ∨ fcPanidCompression fc = 1 := by
        have := comp_lt_two fc; omega
      rcases h2 with h | h
      · exact h
      · exact absurd hs0 (hcomp h).2.1
    have hd1 : fcDstMode fc ≠ 1 := by rcases hdA with h | h <;> omega
    have hdd0 : decAddr (fcDstMode fc) ab = some (da0, []) := by
      simpa using hdd []
    refine ⟨fc / 256 :: fc % 256 :: seq :: p / 256 :: p % 256 :: ab, ?_, ?_⟩
    · simp [MHR.encode, packU16_eq hfc, packU8_eq hseq, packU16_eq hplt,
        hdA, hd1, hs0, hc0, encAddr_zero, hde]
    · simp [MHR.decode, Nat.div_add_mod, hv2, hdA, hd1, hs0, hc0,
        decAddr_zero, readU16_bytes, hdd0]
  -- dst addressed, src addressed
  · subst hdp hsp
    have hd1 : fcDstMode fc ≠ 1 := by rcases hdA with h | h <;> omega
    have hs1 : fcSrcMode fc ≠ 1 := by rcases hsA with h | h <;> omega
    have hsd0 : decAddr (fcSrcMode fc) sb = some (sa0, []) := by
      simpa using hsd []
    have h2 : fcPanidCompression fc = 0 ∨ fcPanidCompression fc = 1 := by
      have := comp_lt_two fc; omega
    rcases h2 with hc0 | hc1
    · -- compression off
      refine ⟨fc / 256 :: fc % 256 :: seq :: p / 256 :: p % 256 ::
        (ab ++ q / 256 :: q % 256 :: sb), ?_, ?_⟩
      · simp [MHR.encode, packU16_eq hfc, packU8_eq hseq, packU16_eq hplt,
          packU16_eq hqlt, hdA, hsA, hd1, hs1, hc0, hde, hse]
      · simp [MHR.decode, Nat.div_add_mod, hv2, hdA, hsA, hd1, hs1, hc0,
          readU16_bytes, hdd, hsd0]
    · -- compression on: the source PAN-ID equals the destination PAN-ID
      have hqp : q = p := by
        have := (hcomp hc1).2.2
        simp only [Option.some.injEq] at this
        exact this
      subst hqp
      refine ⟨fc / 256 :: fc % 256 :: seq :: q / 256 :: q % 256 ::
        (ab ++ sb), ?_, ?_⟩
      · simp [MHR.encode, packU16_eq hfc, packU8_eq hseq, packU16_eq hplt,
          hdA, hsA, hd1, hs1, hc1, hde, hse]
      · simp [MHR.decode, Nat.div_add_mod, hv2, hdA, hsA, hd1, hs1, hc1,
          readU16_bytes, hdd, hsd0]

/-- Claim C1: for every well-formed MHR m with version at most 2006,
decoding the encoding of m yields exactly m with an empty remainder. -/
theorem c1_mhr_roundtrip (m : MHR) (h : m.wellFormed) :
    ∃ bs, m.encode = some bs ∧ MHR.decode bs = some (m, []) :=
  mhr_roundtrip_aux m h

theorem c1_mhr_roundtrip_witness :
    ∃ bs,
      MHR.encode ⟨0x8800, 1, some 5, some (.short 6), some 7, some (.short 9)⟩
        = some bs ∧
      MHR.decode bs =
        some (⟨0x8800, 1, some 5, some (.short 6), some 7, some (.short 9)⟩, []) :=
  c1_mhr_roundtrip _
    ⟨by norm_num, by norm_num, by decide,
     Or.inr (Or.inl ⟨by decide, ⟨5, by norm_num, rfl⟩, ⟨6, by norm_num, rfl⟩⟩),
     Or.inr (Or.inl ⟨by decide, ⟨7, by norm_num, rfl⟩, ⟨9, by norm_num, rfl⟩⟩),
     by decide⟩

/-- Claim C4: with both sides addressed, turning PAN-ID compression on
shortens the encoding by exactly the two src_panid bytes, and the decoded
source PAN-ID equals the destination PAN-ID. `f2` is the frame control of
the same MHR with compression off. -/
theorem c4_panid_compression (m : MHR) (f2 : Nat) (h : m.wellFormed)
    (hdA : fcDstMode m.frame_control = 2 ∨ fcDstMode m.frame_control = 3)
    (hsA : fcSrcMode m.frame_control = 2 ∨ fcSrcMode m.frame_control = 3)
    (hc1 : fcPanidCompression m.frame_control = 1)
    (hf2 : f2 < 65536)
    (hc2 : fcPanidCompression f2 = 0)
    (hd2 : fcDstMode f2 = fcDstMode m.frame_control)
    (hs2 : fcSrcMode f2 = fcSrcMode m.frame_control) :
    ∃ bs1 bs2, m.encode = some bs1 ∧
      MHR.encode { m with frame_control := f2 } = some bs2 ∧
      bs2.length = bs1.length + 2 ∧
      MHR.decode bs1 = some (m, []) ∧ m.src_panid = m.dst_panid := by
  obtain ⟨hfc, hseq, hv, hdst, hsrc, hcomp⟩ := h
  obtain ⟨bs1, henc1, hdec1⟩ :=
    mhr_roundtrip_aux m ⟨hfc, hseq, hv, hdst, hsrc, hcomp⟩
  rcases side_enc_dec hdst with ⟨hd0, _, _⟩ | ⟨_, p, ab, hplt, hdp, hde, _⟩
  · rcases hdA with h | h <;> omega
  rcases side_enc_dec hsrc with ⟨hs0, _, _⟩ | ⟨_, q, sb, hqlt, hsp, hse, _⟩
  · rcases hsA with h | h <;> omega
  have hd1 : fcDstMode m.frame_control ≠ 1 := by rcases hdA with h | h <;> omega
  have hs1 : fcSrcMode m.frame_control ≠ 1 := by rcases hsA with h | h <;> omega
  have hqp : m.src_panid = m.dst_panid := (hcomp hc1).2.2
  have henc1e : m.encode = some (m.frame_control / 256 :: m.frame_control % 256
      :: m.seq_num :: p / 256 :: p % 256 :: (ab ++ sb)) := by
    simp [MHR.encode, packU16_eq hfc, packU8_eq hseq, packU16_eq hplt,
      hdA, hsA, hd1, hs1, hc1, hdp, hde, hse]
  have hbs1 : bs1 = m.frame_control / 256 :: m.frame_control % 256
      :: m.seq_num :: p / 256 :: p % 256 :: (ab ++ sb) := by
    rw [henc1] at henc1e
    exact Option.some.inj henc1e
  subst hbs1
  have henc2 : MHR.encode { m with frame_control := f2 } =
      some (f2 / 256 :: f2 % 256 :: m.seq_num :: p / 256 :: p % 256 ::
        (ab ++ q / 256 :: q % 256 :: sb)) := by
    simp [MHR.encode, packU16_eq hf2, packU8_eq hseq, packU16_eq hplt,
      packU16_eq hqlt, hd2, hs2, hdA, hsA, hd1, hs1, hc2, hdp, hsp, hde, hse]
  refine ⟨_, _, henc1, henc2, ?_, hdec1, hqp⟩
  simp
  omega

theorem c4_panid_compression_witness :
    ∃ bs1 bs2,
      MHR.encode ⟨0x8840, 1, some 5, some (.short 6), some 5, some (.short 7)⟩
        = some bs1 ∧
      MHR.encode { (⟨0x8840, 1, some 5, some (.short 6), some 5,
        some (.short 7)⟩ : MHR) with frame_control := 0x8800 } = some bs2 ∧
      bs2.length = bs1.length + 2 ∧
      MHR.decode bs1 =
        some (⟨0x8840, 1, some 5, some (.short 6), some 5, some (.short 7)⟩, []) ∧
      (⟨0x8840, 1, some 5, some (.short 6), some 5, some (.short 7)⟩ :
        MHR).src_panid =
        (⟨0x8840, 1, some 5, some (.short 6), some 5, some (.short 7)⟩ :
        MHR).dst_panid :=
  c4_panid_compression _ 0x8800
    ⟨by norm_num, by norm_num, by decide,
     Or.inr (Or.inl ⟨by decide, ⟨5, by norm_num, rfl⟩, ⟨6, by norm_num, rfl⟩⟩),
     Or.inr (Or.inl ⟨by decide, ⟨5, by norm_num, rfl⟩, ⟨7, by norm_num, rfl⟩⟩),
     by decide⟩
    (by decide) (by decide) (by decide) (by norm_num) (by decide)
    (by decide) (by decide)

/-- Claim C10: with PAN-ID compression set, an addressed source and no
destination addressing, the encoder omits the src_panid bytes while the
decoder consumes two wire bytes for it, so the round trip cannot return the
original MHR with an empty remainder. -/
theorem c10_compression_without_dst (m : MHR)
    (hfc : m.frame_control < 65536) (hseq : m.seq_num < 256)
    (hv : fcVersion m.frame_control ≤ 1)
    (hd0 : fcDstMode m.frame_control = 0)
    (hdp : m.dst_panid = none) (hda : m.dst_addr = none)
    (hsrc : sideOk (fcSrcMode m.frame_control) m.src_panid m.src_addr)
    (hsA : fcSrcMode m.frame_control = 2 ∨ fcSrcMode m.frame_control = 3)
    (hc1 : fcPanidCompression m.frame_control = 1) :
    ∃ bs, m.encode = some bs ∧
      bs.length = 3 + (if fcSrcMode m.frame_control = 2 then 2 else 8) ∧
      MHR.decode bs ≠ some (m, []) := by
  obtain ⟨fc, seq, dp0, da0, sp0, sa0⟩ := m
  simp only at hfc hseq hv hd0 hdp hda hsrc hsA hc1 ⊢
  subst hdp hda
  have hv2 : ¬ fcVersion fc > 1 := by omega
  have hs1 : fcSrcMode fc ≠ 1 := by rcases hsA with h | h <;> omega
  rcases hsrc with ⟨h0, _, _⟩ | ⟨h2, ⟨q, hqlt, hsp⟩, ⟨a, halt, hsa⟩⟩ |
    ⟨h3, ⟨q, hqlt, hsp⟩, ⟨bs8, hlen, _hbnd, hsa⟩⟩
  · rcases hsA with h | h <;> omega
  · -- short source address: the two address bytes are eaten as src_panid
    -- and the address read itself runs out of bytes
    subst hsp hsa
    refine ⟨[fc / 256, fc % 256, seq, a / 256, a % 256], ?_, ?_, ?_⟩
    · simp [MHR.encode, packU16_eq hfc, packU8_eq hseq, packU16_eq halt,
        hd0, h2, hs1, hc1, encAddr_zero, encAddr]
    · simp [h2]
    · simp [MHR.decode, Nat.div_add_mod, hv2, hd0, h2, hs1, hc1,
        decAddr_zero, readU16_bytes, decAddr, readU16]
  · -- long source address: the first two address bytes are eaten as
    -- src_panid and the decoded address is only six bytes long
    subst hsp hsa
    rcases bs8 with _ | ⟨x0, bs8⟩; · simp at hlen
    rcases bs8 with _ | ⟨x1, r6⟩; · simp at hlen
    have hlen6 : r6.length = 6 := by simpa using hlen
    refine ⟨fc / 256 :: fc % 256 :: seq :: x0 :: x1 :: r6, ?_, ?_, ?_⟩
    · simp [MHR.encode, packU16_eq hfc, packU8_eq hseq,
        hd0, h3, hs1, hc1, encAddr_zero, encAddr]
    · simp [h3, hlen6]
    · have htake : r6.take 8 = r6 := List.take_of_length_le (by omega)
      have hdrop : r6.drop 8 = [] := List.drop_eq_nil_of_le (by omega)
      have hdec : MHR.decode (fc / 256 :: fc % 256 :: seq :: x0 :: x1 :: r6) =
          some (⟨fc, seq, none, none, some (256 * x0 + x1),
            some (.long r6)⟩, []) := by
        simp [MHR.decode, Nat.div_add_mod, hv2, hd0, h3, hs1, hc1,
          decAddr_zero, decAddr, readU16, htake, hdrop]
      rw [hdec]
      intro hEq
      have h1 : AddrVal.long r6 = AddrVal.long (x0 :: x1 :: r6) := by
        have := congrArg (fun z => Option.map (fun pr => pr.1.src_addr) z) hEq
        simpa using this
      have h2 : r6 = x0 :: x1 :: r6 := by injection h1
      have h3 := congrArg List.length h2
      simp only [List.length_cons] at h3
      omega

theorem c10_compression_without_dst_witness :
    ∃ bs,
      MHR.encode ⟨0x8040, 0, none, none, some 7, some (.short 9)⟩ = some bs ∧
      bs.length = 3 + (if fcSrcMode 0x8040 = 2 then 2 else 8) ∧
      MHR.decode bs ≠
        some (⟨0x8040, 0, none, none, some 7, some (.short 9)⟩, []) :=
  c10_compression_without_dst _ (by norm_num) (by norm_num) (by decide)
    (by decide) rfl rfl
    (Or.inr (Or.inl ⟨by decide, ⟨7, by norm_num, rfl⟩, ⟨9, by norm_num, rfl⟩⟩))
    (by decide) (by decide)

theorem ackMHR_encode {seq : Nat} (h : seq < 256) :
    MHR.encode (ackMHR seq) = some [0, 2, seq] := by
  simp [ackMHR, MHR.encode, packU16, packU8, h, encAddr, fcDstMode, fcSrcMode,
    fcPanidCompression]

/-- Claim C2 (code-bug evidence): encoding a beacon that carries one long
pending address fails -- the source appends the long-address list itself to
the byte string (data += long_addr inside the per-address loop), a TypeError
in Python -- so the claimed round trip is impossible for any beacon with
1..7 long pending addresses. -/
theorem c2_bcn_long_pend_encode_fails :
    BCN.encode { pend_addr := [.long [1, 2, 3, 4, 5, 6, 7, 8]] } = none := by
  decide

/-- Claim C3 (code-bug evidence): the gts_request decoder compares instead
of assigning characteristics, so decoding the encoding of a gts_request with
characteristics 5 returns a command with characteristics 0, not the original
command. -/
theorem c3_cmd_gts_roundtrip_fails :
    CMD.encode { identifier := 9, characteristics := 5 } = some [9, 5] ∧
    CMD.decode [9, 5] = some ({ identifier := 9 }, []) ∧
    ({ identifier := 9 } : CMD) ≠ { identifier := 9, characteristics := 5 } := by
  decide

/-- Claim C8 (code-bug evidence): on a frame the MHR decoder refuses -- a
2015-version frame 20 00 00, or a frame 04 00 00 with destination mode 1 --
the coordinator packet handler does not silently drop the packet: the
decode failure propagates (unpacking None raises TypeError, the mode-1 cast
raises ValueError) and nothing in the role catches it, so the handler fails
instead of returning the unchanged state with no actions. -/
theorem c8_refused_frame_fails_handler :
    Coordinator.packet_handler {} 0 [] [0x20, 0x00, 0x00] = none ∧
    Coordinator.packet_handler {} 0 [] [0x04, 0x00, 0x00] = none := by
  decide

/-- Claim C5 counterexample: with the reader synced (do_sync = false) and a
one-byte header read, the step leaves do_sync = false -- the transport does
not transition back to the sync-lost state. -/
theorem c5_short_header_counterexample :
    (DEV.readerStep ⟨false, [], []⟩ [] [0xAA] (fun _ => [])).map
      ReaderState.do_sync = some false := by
  decide

/-- Claim C5 amended: when the reader is synced and the 2-byte header read
returns fewer than 2 bytes, the iteration leaves the state unchanged -- the
reader retries the header read while staying synced; do_sync is never set
back to true after the initial synchronisation. -/
theorem c5_short_header_stays_synced (st : ReaderState)
    (sync hdr : List Nat) (pc : Nat → List Nat)
    (h1 : st.do_sync = false) (h2 : hdr.length < 2) :
    DEV.readerStep st sync hdr pc = some st := by
  rcases hdr with _ | ⟨a, _ | ⟨b, t⟩⟩
  · simp [DEV.readerStep, DEV.readBody, h1]
  · simp [DEV.readerStep, DEV.readBody, h1]
  · simp only [List.length_cons] at h2
    omega

theorem c5_short_header_stays_synced_witness :
    DEV.readerStep ⟨false, [(128, [])], []⟩ [1, 2, 3] [7] (fun _ => []) =
      some ⟨false, [(128, [])], []⟩ :=
  c5_short_header_stays_synced _ _ _ _ rfl (by norm_num)

/-- Claim C6 counterexample: a well-addressed association response with the
non-success status 2 (access_denied) received in wait_response does not
leave the persisted configuration unchanged -- the device writes the
response fields to device.ini anyway. -/
theorem c6_nonsuccess_persists_counterexample :
    ¬ ((Device.association_response_handler
        ⟨[1, 2, 3, 4, 5, 6, 7, 8], 0xFFFF, [], none, none, 1⟩
        { frame_control := 0xCC20, seq_num := 0, dst_panid := some 0xBEEF,
          dst_addr := some (.long [1, 2, 3, 4, 5, 6, 7, 8]),
          src_panid := some 0xBEEF,
          src_addr := some (.long [9, 9, 9, 9, 9, 9, 9, 9]) }
        { identifier := 2, short_addr := some 0xFFFF, status := 2 }).map
      (fun r => r.1.saved) = some none) := by
  decide

/-- Claim C6 amended: an association response passing the addressing checks
in wait_response is acked and, regardless of its status, its panid,
source address and short_addr are adopted and persisted, after which the
device returns to idle. -/
theorem c6_response_always_persists (st : DevState) (mhr : MHR) (cmd : CMD)
    (sa : List Nat) (dp cs : Nat)
    (h1 : st.assoc_state = 1)
    (h2 : mhr.frame_control &&& 32 ≠ 0)
    (h3 : fcDstMode mhr.frame_control = 3)
    (h4 : fcSrcMode mhr.frame_control = 3)
    (h5 : mhr.dst_addr = some (.long st.long_addr))
    (h6 : mhr.dst_panid = some dp)
    (h7 : mhr.src_addr = some (.long sa))
    (h8 : cmd.short_addr = some cs)
    (h9 : mhr.seq_num < 256) :
    Device.association_response_handler st mhr cmd =
      some ({ st with
              panid := dp, coordinator := sa, short_addr := some cs,
              saved := some (dp, sa, cs), assoc_state := 0 },
            [RoleAction.send_packet [0, 2, mhr.seq_num]]) := by
  simp [Device.association_response_handler, Device.save_config,
    h1, h2, h3, h4, h5, h6, h7, h8, ackMHR_encode h9]

theorem c6_response_always_persists_witness :
    Device.association_response_handler
      ⟨[1, 2, 3, 4, 5, 6, 7, 8], 0xFFFF, [], none, none, 1⟩
      { frame_control := 0xCC20, seq_num := 3, dst_panid := some 0xBEEF,
        dst_addr := some (.long [1, 2, 3, 4, 5, 6, 7, 8]),
        src_panid := some 0xBEEF,
        src_addr := some (.long [9, 9, 9, 9, 9, 9, 9, 9]) }
      { identifier := 2, short_addr := some 0x1234, status := 2 } =
      some ({ (⟨[1, 2, 3, 4, 5, 6, 7, 8], 0xFFFF, [], none, none, 1⟩ :
                DevState) with
              panid := 0xBEEF, coordinator := [9, 9, 9, 9, 9, 9, 9, 9],
              short_addr := some 0x1234,
              saved := some (0xBEEF, [9, 9, 9, 9, 9, 9, 9, 9], 0x1234),
              assoc_state := 0 },
            [RoleAction.send_packet [0, 2, 3]]) :=
  c6_response_always_persists _ _ _ _ _ _ rfl (by decide) (by decide)
    (by decide) rfl rfl rfl rfl (by norm_num)

/-- Claim C7: an association request passing the header checks, from a long
address not yet in devices and with no other approval pending, is acked and
puts the coordinator into the pending-approval state for that address at the
current time, starting the green blink. -/
theorem c7_new_requester_enters_pending (st : CoordState) (now : Nat)
    (rng : List Nat) (mhr : MHR) (cmd : CMD) (sa : List Nat)
    (h1 : mhr.frame_control &&& 32 ≠ 0)
    (h2 : fcDstMode mhr.frame_control = 2)
    (h3 : fcSrcMode mhr.frame_control = 3)
    (h4 : mhr.dst_panid = some st.panid)
    (h5 : mhr.dst_addr = some (.short st.short_addr))
    (h6 : mhr.src_panid = some 0xFFFF)
    (h7 : mhr.src_addr = some (.long sa))
    (h8 : ∀ e ∈ st.devices, e.2 ≠ sa)
    (h9 : st.associate = none ∨ st.associate = some (.long sa))
    (h10 : mhr.seq_num < 256) :
    Coordinator.association_request_handler st now rng mhr cmd =
      some ({ st with
              associate_start := now, associate := some (.long sa),
              blink := st.blink ||| ledsGreen, blink_last := now },
            [RoleAction.send_packet [0, 2, mhr.seq_num],
             RoleAction.set_leds ledsGreen ledsGreen]) := by
  rcases h9 with h9 | h9 <;>
    (simp [Coordinator.association_request_handler, h1, h2, h3, h4, h5, h6,
       h7, h9, ackMHR_encode h10]
     intro x hx
     exact absurd rfl (h8 (x, sa) hx))

theorem c7_new_requester_enters_pending_witness :
    Coordinator.association_request_handler
      { panid := 5, short_addr := 0, long_addr := [1, 1, 1, 1, 1, 1, 1, 1] }
      42 []
      { frame_control := 0xC820, seq_num := 7, dst_panid := some 5,
        dst_addr := some (.short 0), src_panid := some 0xFFFF,
        src_addr := some (.long [2, 2, 2, 2, 2, 2, 2, 2]) }
      { identifier := 1, capability := 140 } =
      some ({ ({ panid := 5, short_addr := 0,
                 long_addr := [1, 1, 1, 1, 1, 1, 1, 1] } : CoordState) with
              associate_start := 42,
              associate := some (.long [2, 2, 2, 2, 2, 2, 2, 2]),
              blink := 0 ||| ledsGreen, blink_last := 42 },
            [RoleAction.send_packet [0, 2, 7],
             RoleAction.set_leds ledsGreen ledsGreen]) :=
  c7_new_requester_enters_pending _ _ _ _ _ _ (by decide) (by decide)
    (by decide) rfl rfl rfl rfl (by simp) (Or.inl rfl) (by norm_num)

/-- Looking a value up by reverse image over a device table that does not
contain it leaves the fold at its initial value. -/
theorem foldl_lookup_by_value_eq_init (l : List (Nat × List Nat))
    (la : List Nat) (init : Nat) (h : ∀ e ∈ l, e.2 ≠ la) :
    l.foldl (fun acc e => if e.2 = la then e.1 else acc) init = init := by
  induction l generalizing init with
  | nil => rfl
  | cons e t ih =>
    simp only [List.foldl_cons]
    rw [if_neg (h e (by simp))]
    exact ih init (fun x hx => h x (by simp [hx]))

/-- Encoding of a long-to-long MHR with PAN-ID compression on: the frame
control and sequence bytes, the destination PAN-ID, then the two raw long
addresses with no source PAN-ID bytes. -/
theorem encode_long_long_comp (fc seq pan : Nat) (la lb : List Nat)
    (hfc : fc < 65536) (hseq : seq < 256) (hpan : pan < 65536)
    (hd : fcDstMode fc = 3) (hs : fcSrcMode fc = 3)
    (hc : fcPanidCompression fc = 1) :
    MHR.encode
      { frame_control := fc, seq_num := seq, dst_panid := some pan,
        dst_addr := some (.long la), src_panid := some pan,
        src_addr := some (.long lb) } =
      some (fc / 256 :: fc % 256 :: seq :: pan / 256 :: pan % 256 ::
        (la ++ lb)) := by
  simp [MHR.encode, packU16_eq hfc, packU8_eq hseq, packU16_eq hpan, hd, hs,
    hc, encAddr]

/-- Claim C9: building an association response for an unknown long address
while the device table already holds at least 0xFFFD entries sends a
response whose command part is pan_at_capacity (status 1) with short
address 0xFFFF, and leaves the device table and the persisted configuration
unchanged. -/
theorem c9_pan_at_capacity (st : CoordState) (now : Nat) (rng : List Nat)
    (la : List Nat)
    (h1 : ∀ e ∈ st.devices, e.2 ≠ la)
    (h2 : st.devices.length ≥ 0xFFFD)
    (h3 : st.panid < 65536) (h4 : st.dsn < 256) :
    ∃ st2 mhrB,
      Coordinator.send_association_response st now rng (.long la) false =
        some (st2, [RoleAction.send_packet (mhrB ++ [2, 255, 255, 1])]) ∧
      st2.devices = st.devices ∧ st2.saved_panid = st.saved_panid ∧
      st2.saved_devices = st.saved_devices := by
  have hfold : st.devices.foldl
      (fun acc e => if e.2 = la then e.1 else acc) 0xFFFF = 0xFFFF :=
    foldl_lookup_by_value_eq_init _ _ _ h1
  have hmhr := encode_long_long_comp 0xCC63 st.dsn st.panid la st.long_addr
    (by norm_num) h4 h3 (by decide) (by decide) (by decide)
  have hcmd : CMD.encode
      { identifier := 2, short_addr := some 0xFFFF, status := 1 } =
      some [2, 255, 255, 1] := by decide
  refine ⟨{ st with
            packet := some (0xCC63 / 256 :: 0xCC63 % 256 :: st.dsn ::
              st.panid / 256 :: st.panid % 256 ::
              (la ++ (st.long_addr ++ [2, 255, 255, 1]))),
            packet_last := now, packet_retry := 0, packet_seq := st.dsn,
            dsn := (st.dsn + 1) &&& 0xFF },
          0xCC63 / 256 :: 0xCC63 % 256 :: st.dsn :: st.panid / 256 ::
            st.panid % 256 :: (la ++ st.long_addr), ?_, by simp, by simp,
          by simp⟩
  simp [Coordinator.send_association_response, hfold, h2, hmhr, hcmd]

theorem c9_pan_at_capacity_witness :
    ∃ st2 mhrB,
      Coordinator.send_association_response
        { panid := 0xBEEF, dsn := 7, long_addr := [1, 1, 1, 1, 1, 1, 1, 1],
          devices := List.replicate 0xFFFD (0, [1]) }
        0 [] (.long [2, 2, 2, 2, 2, 2, 2, 2]) false =
        some (st2, [RoleAction.send_packet (mhrB ++ [2, 255, 255, 1])]) ∧
      st2.devices = List.replicate 0xFFFD ((0 : Nat), [1]) ∧
      st2.saved_panid = 0 ∧ st2.saved_devices = [] := by
  obtain ⟨st2, mhrB, ha, hb, hc, hd⟩ := c9_pan_at_capacity
    { panid := 0xBEEF, dsn := 7, long_addr := [1, 1, 1, 1, 1, 1, 1, 1],
      devices := List.replicate 0xFFFD (0, [1]) } 0 []
    [2, 2, 2, 2, 2, 2, 2, 2]
    (by intro e he; simp [List.eq_of_mem_replicate he])
    (by rw [List.length_replicate]) (by norm_num) (by norm_num)
  exact ⟨st2, mhrB, ha, hb, hc, hd⟩
